import Mathlib

/-!
Shallow embedding of the clang toolchain module (clang.py) of the ninja
build-file generator: the flag-composition functions, the per-edge variable
binders, and the toolchain-path normalization performed by build_toolchain.

External collaborators that the module calls but that are outside this file
(the android NDK path helpers, the path-escaping utility, the target platform
queries) are modelled as parameters carried in the Toolchain structure.
-/

/-- The target OS family; the source queries it through target.is_windows()
and target.is_android(), which the spec states are mutually exclusive. -/
inductive Platform
  | windows
  | android
  | generic
deriving DecidableEq

/-- The android NDK helper object used by clang.py: its host architecture name
and the three path-producing methods the module calls. Their implementations
live outside clang.py, so they are abstract parameters here. -/
structure AndroidEnv where
  hostarchname : String
  gccToolchainPath : String → String
  sysrootPath : String → String
  gccBinPath : String → String

/-- The slice of toolchain state that the flag-composition and
variable-binding functions of clang.py read. -/
structure Toolchain where
  target : Platform
  android : AndroidEnv
  pathEscape : String → String
  libpath : String
  sep : String

def Toolchain.is_windows (tc : Toolchain) : Bool :=
  match tc.target with
  | Platform.windows => true
  | _ => false

def Toolchain.is_android (tc : Toolchain) : Bool :=
  match tc.target with
  | Platform.android => true
  | _ => false

/-- Python str.endswith, modelled on the underlying character list. -/
def endswith (s suf : String) : Bool :=
  decide (suf.data <:+ s.data)

/-- Python str.startswith, modelled on the underlying character list. -/
def startswith (s pre : String) : Bool :=
  decide (pre.data <+: s.data)

/-- posixpath.join for two components, with the separator made explicit. -/
def pjoin (sep a b : String) : String :=
  if startswith b sep then b
  else if a = "" ∨ endswith a sep then a ++ b
  else a ++ sep ++ b

/-- clang.py make_includepaths (lines 137-140). -/
def make_includepaths (tc : Toolchain) (includepaths : Option (List String)) :
    List String :=
  match includepaths with
  | some paths => paths.map (fun path => "-I" ++ tc.pathEscape path)
  | none => []

/-- clang.py make_libpaths (lines 142-147). -/
def make_libpaths (tc : Toolchain) (libpaths : Option (List String)) :
    List String :=
  match libpaths with
  | some paths =>
      if tc.is_windows then
        paths.map (fun path => "-Xlinker /LIBPATH:" ++ tc.pathEscape path)
      else
        paths.map (fun path => "-L" ++ tc.pathEscape path)
  | none => []

/-- clang.py make_targetarchflags (lines 149-171). -/
def make_targetarchflags (tc : Toolchain) (arch targettype : String) :
    List String :=
  if tc.is_android then
    (if arch = "x86" then
       ["-target", "i686-none-linux-android",
        "-march=i686", "-mtune=intel", "-mssse3", "-mfpmath=sse", "-m32"]
     else if arch = "x86-64" then
       ["-target", "x86_64-none-linux-android",
        "-march=x86-64", "-msse4.2", "-mpopcnt", "-m64", "-mtune=intel"]
     else if arch = "arm6" then
       ["-target", "armv5te-none-linux-androideabi",
        "-march=armv5te", "-mtune=xscale", "-msoft-float", "-marm"]
     else if arch = "arm7" then
       ["-target", "armv7-none-linux-androideabi",
        "-march=armv7-a", "-mhard-float", "-mfpu=vfpv3-d16", "-mfpu=neon",
        "-D_NDK_MATH_NO_SOFTFP=1", "-marm"]
     else if arch = "arm64" then
       ["-target", "aarch64-none-linux-android"]
     else if arch = "mips" then
       ["-target", "mipsel-none-linux-android"]
     else if arch = "mips64" then
       ["-target", "mips64el-none-linux-android"]
     else [])
    ++ ["-gcc-toolchain", tc.android.gccToolchainPath arch]
  else []

/-- clang.py make_carchflags (lines 173-179). -/
def make_carchflags (tc : Toolchain) (arch targettype : String) : List String :=
  (if targettype = "sharedlib" then ["-DBUILD_DYNAMIC_LINK=1"] else [])
    ++ (if tc.is_android then make_targetarchflags tc arch targettype else [])

/-- clang.py make_cconfigflags (lines 181-191). -/
def make_cconfigflags (tc : Toolchain) (config targettype : String) :
    List String :=
  if config = "debug" then ["-DBUILD_DEBUG=1", "-g"]
  else if config = "release" then
    ["-DBUILD_RELEASE=1", "-O3", "-g", "-funroll-loops"]
  else if config = "profile" then
    ["-DBUILD_PROFILE=1", "-O3", "-g", "-funroll-loops"]
  else if config = "deploy" then
    ["-DBUILD_DEPLOY=1", "-O3", "-g", "-funroll-loops"]
  else []

/-- clang.py make_ararchflags (lines 193-195). -/
def make_ararchflags (tc : Toolchain) (arch targettype : String) : List String :=
  []

/-- clang.py make_arconfigflags (lines 197-199). -/
def make_arconfigflags (tc : Toolchain) (config targettype : String) :
    List String :=
  []

/-- clang.py make_linkarchflags (lines 201-207). -/
def make_linkarchflags (tc : Toolchain) (arch targettype : String) :
    List String :=
  if tc.is_android then
    make_targetarchflags tc arch targettype
      ++ (if arch = "arm7" then
            ["-Wl,--no-warn-mismatch", "-Wl,--fix-cortex-a8"]
          else [])
  else []

/-- clang.py make_linkconfigflags (lines 209-216). -/
def make_linkconfigflags (tc : Toolchain) (config targettype : String) :
    List String :=
  if tc.is_windows then
    (if targettype = "sharedlib" then ["-Xlinker", "/DLL"]
     else if targettype = "bin" then ["-Xlinker", "/SUBSYSTEM:CONSOLE"]
     else [])
  else []

/-- clang.py make_linkarchlibs (lines 218-226). -/
def make_linkarchlibs (tc : Toolchain) (arch targettype : String) :
    List String :=
  if tc.is_android then
    (if arch = "arm7" then ["m_hard"] else ["m"]) ++ ["gcc", "android"]
  else []

/-- clang.py make_libs (lines 228-231). -/
def make_libs (libs : Option (List String)) : List String :=
  match libs with
  | some ls => ls.map (fun lib => "-l" ++ lib)
  | none => []

/-- clang.py make_configlibpaths (lines 233-239). -/
def make_configlibpaths (tc : Toolchain) (config arch : String) : List String :=
  make_libpaths tc
    (some [tc.libpath,
           pjoin tc.sep tc.libpath config,
           pjoin tc.sep (pjoin tc.sep tc.libpath config) arch])

/-- The value bound to a build-edge variable: a scalar string or a flag list. -/
inductive VarValue
  | str (s : String)
  | list (l : List String)
deriving DecidableEq

/-- The caller-supplied per-edge variable map read by the binders: a key may be
absent (outer none), present holding Python None (some none), or present
holding a path/library list (some (some l)). -/
structure CallerVars where
  includepaths : Option (Option (List String))
  libs : Option (Option (List String))

/-- clang.py cc_variables (lines 241-255). -/
def cc_variables (tc : Toolchain) (config arch targettype : String)
    (vars : CallerVars) : List (String × VarValue) :=
  (match vars.includepaths with
   | some v =>
       let moreincludepaths := make_includepaths tc v
       if moreincludepaths ≠ [] then
         [("moreincludepaths", VarValue.list moreincludepaths)]
       else []
   | none => [])
  ++ (let carchflags := make_carchflags tc arch targettype
      if carchflags ≠ [] then [("carchflags", VarValue.list carchflags)]
      else [])
  ++ (let cconfigflags := make_cconfigflags tc config targettype
      if cconfigflags ≠ [] then [("cconfigflags", VarValue.list cconfigflags)]
      else [])
  ++ (if tc.is_android then
        [("sysroot", VarValue.str (tc.android.sysrootPath arch))]
      else [])

/-- clang.py ar_variables (lines 257-267). -/
def ar_variables (tc : Toolchain) (config arch targettype : String)
    (vars : CallerVars) : List (String × VarValue) :=
  (let ararchflags := make_ararchflags tc arch targettype
   if ararchflags ≠ [] then [("ararchflags", VarValue.list ararchflags)]
   else [])
  ++ (let arconfigflags := make_arconfigflags tc config targettype
      if arconfigflags ≠ [] then [("arconfigflags", VarValue.list arconfigflags)]
      else [])
  ++ (if tc.is_android then
        [("toolchain", VarValue.str (tc.android.gccBinPath arch))]
      else [])

/-- clang.py link_variables (lines 269-287). -/
def link_variables (tc : Toolchain) (config arch targettype : String)
    (vars : CallerVars) : List (String × VarValue) :=
  (let linkarchflags := make_linkarchflags tc arch targettype
   if linkarchflags ≠ [] then [("linkarchflags", VarValue.list linkarchflags)]
   else [])
  ++ (let linkconfigflags := make_linkconfigflags tc config targettype
      if linkconfigflags ≠ [] then
        [("linkconfigflags", VarValue.list linkconfigflags)]
      else [])
  ++ (match vars.libs with
      | some v =>
          let libvar := make_libs v
          if libvar ≠ [] then [("libs", VarValue.list libvar)] else []
      | none => [])
  ++ [("configlibpaths", VarValue.list (make_configlibpaths tc config arch))]
  ++ (if tc.is_android then
        [("sysroot", VarValue.str (tc.android.sysrootPath arch))]
      else [])
  ++ (let archlibs := make_linkarchlibs tc arch targettype
      if archlibs ≠ [] then
        [("archlibs", VarValue.list (make_libs (some archlibs)))]
      else [])

/-- The NDK toolchain binary path set by build_android_toolchain (line 135):
os.path.join of the NDK layout with a trailing empty component. -/
def android_toolchain_path (sep : String) (env : AndroidEnv) : String :=
  pjoin sep
    (pjoin sep
      (pjoin sep
        (pjoin sep
          (pjoin sep (pjoin sep "$ndk" "toolchains") "llvm")
          "prebuilt")
        env.hostarchname)
      "bin")
    ""

/-- The final normalization line of build_toolchain (lines 113-114): a
non-empty prefix that does not already end in a slash or a backslash gets
os.sep appended. -/
def normalize_toolchain (sep t : String) : String :=
  if t ≠ "" ∧ ¬ endswith t "/" ∧ ¬ endswith t "\\" then t ++ sep else t

/-- The effect of build_toolchain (lines 107-114) on the toolchain path
prefix: the android specialization overwrites it with the NDK layout path,
and then the prefix is normalized. -/
def build_toolchain_path (target : Platform) (sep : String) (env : AndroidEnv)
    (toolchain0 : String) : String :=
  normalize_toolchain sep
    (match target with
     | Platform.android => android_toolchain_path sep env
     | _ => toolchain0)

/-- Written from the spec words of claim C8 ("ends with exactly one path
separator"): the last character is a separator and the character before it,
when present, is not. -/
def isSepChar (c : Char) : Bool := c == '/' || c == '\\'

/-- Spec-side predicate for claim C8: the string ends with exactly one path
separator character. -/
def endsWithExactlyOneSep (s : String) : Bool :=
  match s.data.reverse with
  | [] => false
  | c :: rest =>
      isSepChar c &&
        (match rest with
         | [] => true
         | d :: _ => !isSepChar d)

/-- Predicate on a variable binding list: some entry binds an empty flag
list. The binders must never produce such an entry. -/
def hasEmptyListValue (vs : List (String × VarValue)) : Bool :=
  vs.any (fun p =>
    match p.2 with
    | VarValue.list l => l.isEmpty
    | VarValue.str _ => false)

/-- All string tokens that make_targetarchflags can emit besides the
gcc-toolchain path returned by the android helper. -/
def targetarch_tokens : List String :=
  ["-target", "i686-none-linux-android", "-march=i686", "-mtune=intel",
   "-mssse3", "-mfpmath=sse", "-m32", "x86_64-none-linux-android",
   "-march=x86-64", "-msse4.2", "-mpopcnt", "-m64",
   "armv5te-none-linux-androideabi", "-march=armv5te", "-mtune=xscale",
   "-msoft-float", "-marm", "armv7-none-linux-androideabi", "-march=armv7-a",
   "-mhard-float", "-mfpu=vfpv3-d16", "-mfpu=neon", "-D_NDK_MATH_NO_SOFTFP=1",
   "aarch64-none-linux-android", "mipsel-none-linux-android",
   "mips64el-none-linux-android", "-gcc-toolchain"]

/-- Concrete android environment used as a test fixture. -/
def androidEnvW : AndroidEnv :=
  { hostarchname := "linux-x86_64"
  , gccToolchainPath := fun arch => "toolchain-" ++ arch
  , sysrootPath := fun arch => "sysroot-" ++ arch
  , gccBinPath := fun arch => "bin-" ++ arch }

/-- Concrete Android-target toolchain fixture. -/
def androidTC : Toolchain :=
  { target := Platform.android, android := androidEnvW
  , pathEscape := fun p => p, libpath := "lib", sep := "/" }

/-- Concrete Windows-target toolchain fixture. -/
def windowsTC : Toolchain :=
  { target := Platform.windows, android := androidEnvW
  , pathEscape := fun p => p, libpath := "lib", sep := "/" }

/-- Concrete generic POSIX toolchain fixture. -/
def genericTC : Toolchain :=
  { target := Platform.generic, android := androidEnvW
  , pathEscape := fun p => p, libpath := "lib", sep := "/" }

/-! ## Helper lemmas -/

/-- An empty binding list has no empty-list entry. -/
theorem hasEmptyListValue_nil : hasEmptyListValue [] = false := rfl

/-- hasEmptyListValue distributes over list append. -/
theorem hasEmptyListValue_append (a b : List (String × VarValue)) :
    hasEmptyListValue (a ++ b) = (hasEmptyListValue a || hasEmptyListValue b) := by
  simp [hasEmptyListValue]

/-- A binding guarded by non-emptiness of its own list never binds an empty
list. -/
theorem hasEmptyListValue_guard (n : String) (l : List String) :
    hasEmptyListValue (if l ≠ [] then [(n, VarValue.list l)] else []) = false := by
  split
  · rename_i h
    cases l with
    | nil => exact absurd rfl h
    | cons a as => rfl
  · rfl

/-- A conditional scalar-string binding never binds an empty list. -/
theorem hasEmptyListValue_guard_str (b : Prop) [Decidable b] (n s : String) :
    hasEmptyListValue (if b then [(n, VarValue.str s)] else []) = false := by
  split <;> rfl

/-- hasEmptyListValue of a single list binding is emptiness of that list. -/
theorem hasEmptyListValue_single_list (n : String) (l : List String) :
    hasEmptyListValue [(n, VarValue.list l)] = l.isEmpty := by
  simp [hasEmptyListValue]

/-- make_configlibpaths always yields one flag per path of its three-element
path list, so its result is never empty. -/
theorem make_configlibpaths_isEmpty (tc : Toolchain) (config arch : String) :
    (make_configlibpaths tc config arch).isEmpty = false := by
  simp only [make_configlibpaths, make_libpaths]
  split <;> simp

/-- The archlibs binding of link_variables never binds an empty list: the
guard tests the library list whose -l image it binds. -/
theorem hasEmptyListValue_archlibs (tc : Toolchain) (arch targettype : String) :
    hasEmptyListValue
      (if make_linkarchlibs tc arch targettype ≠ [] then
         [("archlibs",
           VarValue.list (make_libs (some (make_linkarchlibs tc arch targettype))))]
       else []) = false := by
  split
  · rename_i h
    cases hl : make_linkarchlibs tc arch targettype with
    | nil => exact absurd hl h
    | cons a as => simp [make_libs, hl, hasEmptyListValue]
  · rfl

/-- Every token make_targetarchflags emits is either one of the fixed tokens
of its architecture table or the gcc-toolchain path for the given arch. -/
theorem mem_targetarchflags_cases (tc : Toolchain) (arch targettype x : String)
    (hx : x ∈ make_targetarchflags tc arch targettype) :
    x ∈ targetarch_tokens ∨ x = tc.android.gccToolchainPath arch := by
  unfold make_targetarchflags at hx
  split at hx
  · rcases List.mem_append.mp hx with hmem | hmem
    · left
      split_ifs at hmem <;>
        first
          | exact absurd hmem (List.not_mem_nil x)
          | (fin_cases hmem <;> decide)
    · rcases List.mem_cons.mp hmem with rfl | hmem2
      · left
        decide
      · right
        simpa using hmem2
  · exact absurd hx (List.not_mem_nil x)

/-- A string that is neither a fixed architecture token nor the gcc-toolchain
path does not occur in make_targetarchflags. -/
theorem not_mem_targetarchflags (tc : Toolchain) (arch targettype x : String)
    (hpath : tc.android.gccToolchainPath arch ≠ x)
    (htok : x ∉ targetarch_tokens) :
    x ∉ make_targetarchflags tc arch targettype := by
  intro hx
  rcases mem_targetarchflags_cases tc arch targettype x hx with h | h
  · exact htok h
  · exact hpath h.symm

/-- The normalization step leaves every non-empty prefix ending in a slash or
a backslash. -/
theorem normalize_endswith (sep t : String) (hsep : sep = "/" ∨ sep = "\\")
    (h0 : t ≠ "") :
    endswith (normalize_toolchain sep t) "/" = true ∨
    endswith (normalize_toolchain sep t) "\\" = true := by
  unfold normalize_toolchain
  by_cases h1 : endswith t "/" = true
  · rw [if_neg (fun hc => hc.2.1 h1)]
    exact Or.inl h1
  · by_cases h2 : endswith t "\\" = true
    · rw [if_neg (fun hc => hc.2.2 h2)]
      exact Or.inr h2
    · rw [if_pos ⟨h0, h1, h2⟩]
      have hs : endswith (t ++ sep) sep = true := by
        unfold endswith
        exact decide_eq_true
          (by rw [String.data_append]; exact List.suffix_append _ _)
      rcases hsep with rfl | rfl
      · exact Or.inl hs
      · exact Or.inr hs

/-! ## Claim theorems -/

/-- Claim C1, counterexample: on the Android platform an architecture symbol
outside the recognized set does not yield an empty list, contrary to the
claim — make_targetarchflags still appends the gcc-toolchain pair. -/
theorem make_targetarchflags_unknown_not_nil :
    make_targetarchflags androidTC "sparc" "lib" =
      ["-gcc-toolchain", "toolchain-sparc"] ∧
    make_targetarchflags androidTC "sparc" "lib" ≠ [] := by
  constructor <;> decide

/-- Claim C1 (amended): make_targetarchflags is non-empty exactly on the
Android platform — every non-Android platform yields the empty list, Android
always yields a non-empty list — and on Android an architecture symbol not in
the recognized set (x86, x86-64, arm6, arm7, arm64, mips, mips64) yields
exactly the trailing gcc-toolchain pair rather than raising an error. -/
theorem make_targetarchflags_unknown_amended (tc : Toolchain)
    (arch targettype : String) :
    (tc.is_android = false → make_targetarchflags tc arch targettype = []) ∧
    (tc.is_android = true → make_targetarchflags tc arch targettype ≠ []) ∧
    (tc.is_android = true →
       arch ∉ (["x86", "x86-64", "arm6", "arm7", "arm64", "mips", "mips64"] :
                 List String) →
       make_targetarchflags tc arch targettype =
         ["-gcc-toolchain", tc.android.gccToolchainPath arch]) := by
  refine ⟨?_, ?_, ?_⟩
  · intro h
    simp [make_targetarchflags, h]
  · intro h
    simp [make_targetarchflags, h]
  · intro h hm
    simp only [List.mem_cons, List.not_mem_nil, or_false, not_or] at hm
    obtain ⟨n1, n2, n3, n4, n5, n6, n7⟩ := hm
    simp [make_targetarchflags, h, n1, n2, n3, n4, n5, n6, n7]

/-- Claim C1 (amended), witness at concrete inputs. -/
theorem make_targetarchflags_unknown_amended_witness :
    make_targetarchflags genericTC "sparc" "lib" = [] ∧
    make_targetarchflags androidTC "sparc" "lib" ≠ [] ∧
    make_targetarchflags androidTC "sparc" "lib" =
      ["-gcc-toolchain", androidTC.android.gccToolchainPath "sparc"] :=
  ⟨(make_targetarchflags_unknown_amended genericTC "sparc" "lib").1 rfl,
   (make_targetarchflags_unknown_amended androidTC "sparc" "lib").2.1 rfl,
   (make_targetarchflags_unknown_amended androidTC "sparc" "lib").2.2 rfl
     (by decide)⟩

/-- Claim C2: for every (config, arch, targettype) and caller variable map,
cc_variables, ar_variables and link_variables never include an override entry
whose value is an empty flag list — a category that composes to nothing is
omitted from the result entirely. -/
theorem variables_never_bind_empty_list (tc : Toolchain)
    (config arch targettype : String) (vars : CallerVars) :
    hasEmptyListValue (cc_variables tc config arch targettype vars) = false ∧
    hasEmptyListValue (ar_variables tc config arch targettype vars) = false ∧
    hasEmptyListValue (link_variables tc config arch targettype vars) = false := by
  refine ⟨?_, ?_, ?_⟩
  · unfold cc_variables
    cases hip : vars.includepaths <;>
      simp only [hasEmptyListValue_append, hasEmptyListValue_guard,
        hasEmptyListValue_nil, hasEmptyListValue_guard_str,
        Bool.or_false, Bool.false_or]
  · unfold ar_variables
    simp only [hasEmptyListValue_append, hasEmptyListValue_guard,
      hasEmptyListValue_nil, hasEmptyListValue_guard_str,
      Bool.or_false, Bool.false_or]
  · unfold link_variables
    cases hlb : vars.libs <;>
      simp only [hasEmptyListValue_append, hasEmptyListValue_guard,
        hasEmptyListValue_nil, hasEmptyListValue_guard_str,
        hasEmptyListValue_archlibs, hasEmptyListValue_single_list,
        make_configlibpaths_isEmpty, Bool.or_false, Bool.false_or]

/-- Claim C3: on the Android platform with arch arm7, make_targetarchflags
returns exactly the target-triple pair, then -march=armv7-a, -mhard-float,
-mfpu=vfpv3-d16, -mfpu=neon, the no-softfp define, -marm, and finally the
gcc-toolchain-path pair, in this order. -/
theorem make_targetarchflags_android_arm7 (tc : Toolchain) (targettype : String)
    (h : tc.is_android = true) :
    make_targetarchflags tc "arm7" targettype =
      ["-target", "armv7-none-linux-androideabi", "-march=armv7-a",
       "-mhard-float", "-mfpu=vfpv3-d16", "-mfpu=neon",
       "-D_NDK_MATH_NO_SOFTFP=1", "-marm",
       "-gcc-toolchain", tc.android.gccToolchainPath "arm7"] := by
  simp [make_targetarchflags, h]

/-- Claim C3, witness at a concrete Android toolchain. -/
theorem make_targetarchflags_android_arm7_witness :
    make_targetarchflags androidTC "arm7" "lib" =
      ["-target", "armv7-none-linux-androideabi", "-march=armv7-a",
       "-mhard-float", "-mfpu=vfpv3-d16", "-mfpu=neon",
       "-D_NDK_MATH_NO_SOFTFP=1", "-marm",
       "-gcc-toolchain", androidTC.android.gccToolchainPath "arm7"] :=
  make_targetarchflags_android_arm7 androidTC "lib" rfl

/-- Claim C4: make_cconfigflags maps debug to exactly its define plus the
symbols flag carrying no optimization level, maps release, profile and deploy
each to exactly its own define followed by -O3, -g, -funroll-loops, the four
results carry pairwise distinct defines (their heads are pairwise distinct),
and every other config yields the empty list. -/
theorem make_cconfigflags_exact (tc : Toolchain) (config targettype : String) :
    make_cconfigflags tc "debug" targettype = ["-DBUILD_DEBUG=1", "-g"] ∧
    make_cconfigflags tc "release" targettype =
      ["-DBUILD_RELEASE=1", "-O3", "-g", "-funroll-loops"] ∧
    make_cconfigflags tc "profile" targettype =
      ["-DBUILD_PROFILE=1", "-O3", "-g", "-funroll-loops"] ∧
    make_cconfigflags tc "deploy" targettype =
      ["-DBUILD_DEPLOY=1", "-O3", "-g", "-funroll-loops"] ∧
    (List.map (fun c => (make_cconfigflags tc c targettype).head?)
        ["debug", "release", "profile", "deploy"]).Nodup ∧
    (config ∉ (["debug", "release", "profile", "deploy"] : List String) →
      make_cconfigflags tc config targettype = []) := by
  refine ⟨rfl, rfl, rfl, rfl, ?_, ?_⟩
  · show (List.map (fun c => (make_cconfigflags tc c targettype).head?)
        ["debug", "release", "profile", "deploy"]).Nodup
    simp only [List.map_cons, List.map_nil]
    rw [show make_cconfigflags tc "debug" targettype = ["-DBUILD_DEBUG=1", "-g"] from rfl,
        show make_cconfigflags tc "release" targettype =
          ["-DBUILD_RELEASE=1", "-O3", "-g", "-funroll-loops"] from rfl,
        show make_cconfigflags tc "profile" targettype =
          ["-DBUILD_PROFILE=1", "-O3", "-g", "-funroll-loops"] from rfl,
        show make_cconfigflags tc "deploy" targettype =
          ["-DBUILD_DEPLOY=1", "-O3", "-g", "-funroll-loops"] from rfl]
    decide
  · intro h
    simp only [List.mem_cons, List.not_mem_nil, or_false, not_or] at h
    obtain ⟨h1, h2, h3, h4⟩ := h
    simp [make_cconfigflags, h1, h2, h3, h4]

/-- Claim C4, witness: an unrecognized config yields the empty list. -/
theorem make_cconfigflags_exact_witness :
    make_cconfigflags genericTC "custom" "lib" = [] :=
  (make_cconfigflags_exact genericTC "custom" "lib").2.2.2.2.2 (by decide)

/-- Claim C5: make_carchflags contains the dynamic-link define
-DBUILD_DYNAMIC_LINK=1 if and only if targettype is sharedlib, on every
platform and architecture (granted the external gcc-toolchain path is not
itself that define token). -/
theorem make_carchflags_dynamic_link_iff (tc : Toolchain)
    (arch targettype : String)
    (h : tc.android.gccToolchainPath arch ≠ "-DBUILD_DYNAMIC_LINK=1") :
    ("-DBUILD_DYNAMIC_LINK=1" ∈ make_carchflags tc arch targettype ↔
      targettype = "sharedlib") := by
  have hrest : "-DBUILD_DYNAMIC_LINK=1" ∉
      (if tc.is_android then make_targetarchflags tc arch targettype else []) := by
    split
    · exact not_mem_targetarchflags tc arch targettype _ h (by decide)
    · exact List.not_mem_nil _
  unfold make_carchflags
  constructor
  · intro hmem
    rcases List.mem_append.mp hmem with h1 | h1
    · by_contra hne
      rw [if_neg hne] at h1
      exact List.not_mem_nil _ h1
    · exact absurd h1 hrest
  · intro ht
    rw [List.mem_append, if_pos ht]
    exact Or.inl (by simp)

/-- Claim C5, witness at a concrete Android toolchain. -/
theorem make_carchflags_dynamic_link_iff_witness :
    ("-DBUILD_DYNAMIC_LINK=1" ∈ make_carchflags androidTC "x86" "sharedlib" ↔
      ("sharedlib" : String) = "sharedlib") :=
  make_carchflags_dynamic_link_iff androidTC "x86" "sharedlib" (by decide)

/-- Claim C6: on the Windows platform make_linkconfigflags yields the DLL
pair for sharedlib targets and the console-subsystem pair for bin targets;
on every non-Windows platform it yields the empty list for every config and
target type. -/
theorem make_linkconfigflags_windows (tc : Toolchain) (config targettype : String) :
    (tc.is_windows = true →
       make_linkconfigflags tc config "sharedlib" = ["-Xlinker", "/DLL"] ∧
       make_linkconfigflags tc config "bin" = ["-Xlinker", "/SUBSYSTEM:CONSOLE"]) ∧
    (tc.is_windows = false → make_linkconfigflags tc config targettype = []) := by
  constructor
  · intro h
    constructor <;> simp [make_linkconfigflags, h]
  · intro h
    simp [make_linkconfigflags, h]

/-- Claim C6, witness at concrete Windows and generic toolchains. -/
theorem make_linkconfigflags_windows_witness :
    (make_linkconfigflags windowsTC "release" "sharedlib" = ["-Xlinker", "/DLL"] ∧
     make_linkconfigflags windowsTC "release" "bin" =
       ["-Xlinker", "/SUBSYSTEM:CONSOLE"]) ∧
    make_linkconfigflags genericTC "release" "bin" = [] :=
  ⟨(make_linkconfigflags_windows windowsTC "release" "bin").1 rfl,
   (make_linkconfigflags_windows genericTC "release" "bin").2 rfl⟩

/-- Claim C7: on the Android platform make_linkarchflags for arm7 appends the
mismatch-tolerance and cortex-a8 fix-up flags after the shared compile-time
architecture flags; for every other architecture (granted the external
gcc-toolchain path is not one of those two flags) and on every non-Android
platform those flags are absent. -/
theorem make_linkarchflags_arm7_fixups (tc : Toolchain)
    (arch targettype : String) :
    (tc.is_android = true →
       make_linkarchflags tc "arm7" targettype =
         make_targetarchflags tc "arm7" targettype ++
           ["-Wl,--no-warn-mismatch", "-Wl,--fix-cortex-a8"]) ∧
    (arch ≠ "arm7" →
       tc.android.gccToolchainPath arch ≠ "-Wl,--no-warn-mismatch" →
       tc.android.gccToolchainPath arch ≠ "-Wl,--fix-cortex-a8" →
       "-Wl,--no-warn-mismatch" ∉ make_linkarchflags tc arch targettype ∧
       "-Wl,--fix-cortex-a8" ∉ make_linkarchflags tc arch targettype) ∧
    (tc.is_android = false → make_linkarchflags tc arch targettype = []) := by
  refine ⟨?_, ?_, ?_⟩
  · intro h
    simp [make_linkarchflags, h]
  · intro ha h1 h2
    have hl : make_linkarchflags tc arch targettype =
        (if tc.is_android then make_targetarchflags tc arch targettype else []) := by
      simp [make_linkarchflags, ha]
    constructor
    · rw [hl]
      split
      · exact not_mem_targetarchflags tc arch targettype _ h1 (by decide)
      · exact List.not_mem_nil _
    · rw [hl]
      split
      · exact not_mem_targetarchflags tc arch targettype _ h2 (by decide)
      · exact List.not_mem_nil _
  · intro h
    simp [make_linkarchflags, h]

/-- Claim C7, witness at concrete Android and generic toolchains. -/
theorem make_linkarchflags_arm7_fixups_witness :
    make_linkarchflags androidTC "arm7" "bin" =
      make_targetarchflags androidTC "arm7" "bin" ++
        ["-Wl,--no-warn-mismatch", "-Wl,--fix-cortex-a8"] ∧
    ("-Wl,--no-warn-mismatch" ∉ make_linkarchflags androidTC "x86" "bin" ∧
     "-Wl,--fix-cortex-a8" ∉ make_linkarchflags androidTC "x86" "bin") ∧
    make_linkarchflags genericTC "x86" "bin" = [] :=
  ⟨(make_linkarchflags_arm7_fixups androidTC "x86" "bin").1 rfl,
   (make_linkarchflags_arm7_fixups androidTC "x86" "bin").2.1
     (by decide) (by decide) (by decide),
   (make_linkarchflags_arm7_fixups genericTC "x86" "bin").2.2 rfl⟩

/-- Claim C8, counterexample: a toolchain prefix already ending in two
slashes passes through build_toolchain unchanged, so the final non-empty
prefix does not end with exactly one path separator. -/
theorem build_toolchain_path_two_seps :
    build_toolchain_path Platform.generic "/" androidEnvW "foo//" = "foo//" ∧
    build_toolchain_path Platform.generic "/" androidEnvW "foo//" ≠ "" ∧
    endsWithExactlyOneSep
      (build_toolchain_path Platform.generic "/" androidEnvW "foo//") = false := by
  refine ⟨?_, ?_, ?_⟩ <;> decide

/-- Claim C8 (amended): after build_toolchain completes, a non-empty
toolchain path prefix ends with at least one path separator (slash or
backslash), and on a non-Android platform an empty prefix is left empty. -/
theorem build_toolchain_path_endswith_sep (target : Platform) (sep t : String)
    (env : AndroidEnv) (hsep : sep = "/" ∨ sep = "\\") :
    (build_toolchain_path target sep env t ≠ "" →
       endswith (build_toolchain_path target sep env t) "/" = true ∨
       endswith (build_toolchain_path target sep env t) "\\" = true) ∧
    (target ≠ Platform.android → build_toolchain_path target sep env "" = "") := by
  constructor
  · intro hne
    unfold build_toolchain_path at hne ⊢
    apply normalize_endswith sep _ hsep
    intro h0
    apply hne
    rw [h0]
    unfold normalize_toolchain
    simp
  · intro ht
    unfold build_toolchain_path
    cases target with
    | android => exact absurd rfl ht
    | windows =>
        unfold normalize_toolchain
        simp
    | generic =>
        unfold normalize_toolchain
        simp

/-- Claim C8 (amended), witness at a concrete generic toolchain. -/
theorem build_toolchain_path_endswith_sep_witness :
    (endswith (build_toolchain_path Platform.generic "/" androidEnvW "foo") "/" = true ∨
     endswith (build_toolchain_path Platform.generic "/" androidEnvW "foo") "\\" = true) ∧
    build_toolchain_path Platform.generic "/" androidEnvW "" = "" :=
  ⟨(build_toolchain_path_endswith_sep Platform.generic "/" "foo" androidEnvW
      (Or.inl rfl)).1 (by decide),
   (build_toolchain_path_endswith_sep Platform.generic "/" "x" androidEnvW
      (Or.inl rfl)).2 (by decide)⟩

/-- Claim C9: on the Android platform make_linkarchlibs always yields a
non-empty list containing a math library and the platform runtime libraries,
with arm7 getting the hardware-float variant m_hard and every other
architecture getting m; on non-Android platforms the list is empty. -/
theorem make_linkarchlibs_android (tc : Toolchain) (arch targettype : String) :
    (tc.is_android = true →
       make_linkarchlibs tc "arm7" targettype = ["m_hard", "gcc", "android"] ∧
       (arch ≠ "arm7" →
          make_linkarchlibs tc arch targettype = ["m", "gcc", "android"])) ∧
    (tc.is_android = false → make_linkarchlibs tc arch targettype = []) := by
  constructor
  · intro h
    constructor
    · simp [make_linkarchlibs, h]
    · intro ha
      simp [make_linkarchlibs, h, ha]
  · intro h
    simp [make_linkarchlibs, h]

/-- Claim C9, witness at concrete Android and generic toolchains. -/
theorem make_linkarchlibs_android_witness :
    (make_linkarchlibs androidTC "arm7" "bin" = ["m_hard", "gcc", "android"] ∧
     make_linkarchlibs androidTC "x86" "bin" = ["m", "gcc", "android"]) ∧
    make_linkarchlibs genericTC "x86" "bin" = [] :=
  ⟨⟨((make_linkarchlibs_android androidTC "x86" "bin").1 rfl).1,
    ((make_linkarchlibs_android androidTC "x86" "bin").1 rfl).2 (by decide)⟩,
   (make_linkarchlibs_android genericTC "x86" "bin").2 rfl⟩

/-- Claim C10: make_includepaths, make_libpaths and make_libs are total at
the interface — a None argument yields the empty list, and otherwise they
return exactly one flag token per input element in input order, carrying the
-I, -L (or the linker-forwarded /LIBPATH: switch on Windows) and -l prefixes
respectively. -/
theorem path_list_helpers_total (tc : Toolchain) (l : List String) :
    make_includepaths tc none = [] ∧
    make_libpaths tc none = [] ∧
    make_libs none = [] ∧
    make_includepaths tc (some l) =
      l.map (fun path => "-I" ++ tc.pathEscape path) ∧
    (tc.is_windows = true →
       make_libpaths tc (some l) =
         l.map (fun path => "-Xlinker /LIBPATH:" ++ tc.pathEscape path)) ∧
    (tc.is_windows = false →
       make_libpaths tc (some l) =
         l.map (fun path => "-L" ++ tc.pathEscape path)) ∧
    make_libs (some l) = l.map (fun lib => "-l" ++ lib) := by
  refine ⟨rfl, rfl, rfl, rfl, ?_, ?_, rfl⟩
  · intro h
    simp [make_libpaths, h]
  · intro h
    simp [make_libpaths, h]

/-- Claim C10, witness at concrete Windows and generic toolchains. -/
theorem path_list_helpers_total_witness :
    make_libpaths windowsTC (some ["p"]) =
      ["p"].map (fun path => "-Xlinker /LIBPATH:" ++ windowsTC.pathEscape path) ∧
    make_libpaths genericTC (some ["p"]) =
      ["p"].map (fun path => "-L" ++ genericTC.pathEscape path) :=
  ⟨(path_list_helpers_total windowsTC ["p"]).2.2.2.2.1 rfl,
   (path_list_helpers_total genericTC ["p"]).2.2.2.2.2.1 rfl⟩
